import Mathlib

/-!
Verification of the payment-saga core of the autonomous-treasurer backend.

The development shallowly embeds the Python sources:
  * `backend/exception/retry_logic.py` — `RetryConfig.get_delay` and
    `retry_async` (exponential backoff with jitter);
  * `backend/notifications/email_service.py` — `EmailService.send_alert`;
  * `backend/finance/saga_orchestrator.py` — the three saga steps and
    `execute_payment_saga`;
  * `backend/app.py` — the `process_invoice` handler (post-parsing part).

Conventions: Python floats/Decimals become `ℚ`; a call that can raise is an
`Except String` value in the environment; `random.random()` becomes an
explicit draw stream `ℕ → ℚ` (a draw lies in `[0,1)`); external collaborator
state (Redis policy limit, chain balance, SMTP outcome, RPC outcomes) is an
explicit environment record read by the functions exactly where the Python
code performs the corresponding call.  Side effects (ledger writes, alerts,
broadcasts) are returned as explicit traces.
-/

/-! ### Retry helper (`backend/exception/retry_logic.py`) -/

/-- `RetryConfig` (retry_logic.py lines 13-26).  `max_attempts` is an `Int`
because Python accepts any integer there (`range(n)` of a non-positive `n` is
empty, which claim C10 is about).  Delays are `ℚ` in place of floats. -/
structure RetryConfig where
  max_attempts : Int := 3
  initial_delay : ℚ := 1
  max_delay : ℚ := 60
  exponential_base : ℚ := 2
  jitter : Bool := true
deriving DecidableEq

/-- `RetryConfig.get_delay` (retry_logic.py lines 28-33):
`delay = min(initial_delay * exponential_base ** attempt, max_delay)`, then
`delay *= (0.5 + random.random())` when jitter is on.  `draw` stands for the
`random.random()` sample of that call.  `min` is written out as its
definition on a linear order (`min_def`) so that the kernel can evaluate it
on concrete rationals. -/
def RetryConfig.get_delay (cfg : RetryConfig) (draw : ℚ) (attempt : Nat) : ℚ :=
  let clamped := cfg.initial_delay * cfg.exponential_base ^ attempt
  let delay := if clamped ≤ cfg.max_delay then clamped else cfg.max_delay
  if cfg.jitter then delay * (1/2 + draw) else delay

/-- How one `retry_async` call ends: a returned value, a propagated exception,
or — when the loop body never ran and `last_exception` is still `None` —
Python's `raise None`, which raises `TypeError: exceptions must derive from
BaseException`. -/
inductive RetryOutcome (E A : Type) where
  | ok (a : A)
  | raised (e : E)
  | typeErrorNone
deriving DecidableEq

/-- Observable behaviour of one `retry_async` call: its outcome, how many
times the wrapped operation was invoked, and the backoff delays slept (in
order) before each retry. -/
structure RetryRun (E A : Type) where
  outcome : RetryOutcome E A
  calls : Nat
  sleeps : List ℚ
deriving DecidableEq

/-- The `for attempt in range(config.max_attempts)` loop of `retry_async`
(retry_logic.py lines 56-75).  `op n` is what `await func(...)` does on the
attempt with 0-based index `n`; `retriable e` is whether exception `e`
matches `retriable_exceptions` (a non-matching exception propagates out of
the loop at once); `remaining` is how many loop iterations are left, and
`last` the current `last_exception`.  A delay is slept only when
`attempt < max_attempts - 1`, i.e. when further iterations remain. -/
def retryGo {E A : Type} (op : Nat → Except E A) (retriable : E → Bool)
    (cfg : RetryConfig) (draws : Nat → ℚ) :
    Nat → Nat → Option E → RetryRun E A
  | _attempt, 0, last =>
    match last with
    | some e => ⟨.raised e, 0, []⟩
    | none => ⟨.typeErrorNone, 0, []⟩
  | attempt, r + 1, _last =>
    match op attempt with
    | .ok a => ⟨.ok a, 1, []⟩
    | .error e =>
      if retriable e then
        let rest := retryGo op retriable cfg draws (attempt + 1) r (some e)
        ⟨rest.outcome, rest.calls + 1,
          if r = 0 then rest.sleeps
          else cfg.get_delay (draws attempt) attempt :: rest.sleeps⟩
      else ⟨.raised e, 1, []⟩

/-- `retry_async` (retry_logic.py lines 36-75): run the loop starting at
attempt 0 with `last_exception = None`.  `Int.toNat` mirrors that
`range(max_attempts)` is empty for non-positive `max_attempts`. -/
def retry_async {E A : Type} (op : Nat → Except E A) (retriable : E → Bool)
    (cfg : RetryConfig) (draws : Nat → ℚ) : RetryRun E A :=
  retryGo op retriable cfg draws 0 cfg.max_attempts.toNat none

/-! ### Notification sink (`backend/notifications/email_service.py`) -/

/-- Environment of one `EmailService.send_alert` call: the SMTP credentials
and target read from the environment in `__init__` (`None` models a missing
or empty variable, which is falsy in Python), and what the SMTP session of
this call would do (`.error` models any exception raised between `SMTP(...)`
and `quit()`). -/
structure EmailEnv where
  senderEmail : Option String
  senderPassword : Option String
  targetEmail : Option String
  smtpResult : Except String Unit

/-- `EmailService.send_alert` (email_service.py lines 18-61): missing
credentials short-circuit to `False`; otherwise the whole SMTP interaction is
inside `try`, returning `True` on success and `False` on any exception.  The
message text itself does not influence the result. -/
def send_alert (env : EmailEnv) (issue_type details : String) : Bool :=
  if env.senderEmail.isNone || env.senderPassword.isNone then
    false
  else
    match env.smtpResult with
    | .ok _ => true
    | .error _ => false

/-! ### Saga data model (`backend/finance/saga_orchestrator.py`) -/

/-- Substring test: Lean form of Python's `"FAILED" in tx_hash`
(saga_orchestrator.py line 64).  `matchesAt needle hay` is true when `needle`
occurs at the head of `hay`. -/
def matchesAt : List Char → List Char → Bool
  | [], _ => true
  | _ :: _, [] => false
  | c :: cs, d :: ds => c == d && matchesAt cs ds

/-- True when `needle` occurs somewhere in `hay`. -/
def containsSeq (needle : List Char) : List Char → Bool
  | [] => needle.isEmpty
  | d :: ds => matchesAt needle (d :: ds) || containsSeq needle ds

/-- `strContains hay needle` is Python's `needle in hay` on strings. -/
def strContains (hay needle : String) : Bool :=
  containsSeq needle.toList hay.toList

/-- Reservation states of the spec's `ReservationRecord`
(`{RESERVED, COMMITTED, RELEASED}`). -/
inductive ReservationState where
  | RESERVED
  | COMMITTED
  | RELEASED
deriving DecidableEq

/-- A durable ledger reservation record.  The trace below collects every such
record the saga writes; `_step_reserve_funds_db` (saga_orchestrator.py lines
96-100) writes none — its body is `await asyncio.sleep(0.1); return True`
with the comment `(Real DB logic would go here)`. -/
structure ReservationRecord where
  state : ReservationState
deriving DecidableEq

/-- One broadcast transfer: recipient address, token amount, and the nonce
used (saga_orchestrator.py lines 155-172). -/
structure Broadcast where
  recipient : String
  amount : ℚ
  nonce : Nat
deriving DecidableEq

/-- One `send_alert` call as the saga observes it: category, details text and
the boolean the sink returned (the saga ignores it). -/
structure EmailAlert where
  category : String
  details : String
  delivered : Bool
deriving DecidableEq

/-- Side effects of one `_step_execute_chain_transaction` call:
`nonceFetches` counts successful `get_transaction_count` reads, `broadcasts`
the transactions sent, `emailAlerts` the notification-sink calls and
`redisAlerts` the `lpush("treasury:alerts", ...)` writes. -/
structure ChainTrace where
  nonceFetches : Nat
  broadcasts : List Broadcast
  emailAlerts : List EmailAlert
  redisAlerts : List String
deriving DecidableEq

/-- The empty chain trace. -/
def ChainTrace.empty : ChainTrace := ⟨0, [], [], []⟩

/-- Side effects of one `execute_payment_saga` call: how many times the
reservation step ran, the ledger reservation records it wrote (none — see
`ReservationRecord`), and the chain step's trace. -/
structure SagaTrace where
  reserveCalls : Nat
  reservations : List ReservationRecord
  chain : ChainTrace
deriving DecidableEq

/-- External state read by the chain-execution step
(saga_orchestrator.py lines 103-180): the signing key (`None` models a
missing `WALLET_PRIVATE_KEY`), the optional token address (both balance
branches read the same account balance), the account balance, and the
results of the nonce read and of the build/sign/broadcast phase (`.error`
models an exception, which the step's `except` turns into a
`FAILED_CHAIN_ERROR` string). -/
structure ChainEnv where
  privateKey : Option String
  tokenAddress : Option String
  balance : ℚ
  nonceResult : Except String Nat
  sendResult : Except String String

/-- Environment of one saga run: whether the Redis client connected at
start-up (saga_orchestrator.py lines 19-27), the stored value of
`system:approval_limit` (`None` when the key is absent or empty), the chain
environment and the email environment. -/
structure SagaEnv where
  redisAvailable : Bool
  policyLimit : Option ℚ
  chain : ChainEnv
  email : EmailEnv

/-- The limit `_step_validate_request` compares against
(saga_orchestrator.py lines 80-85): the stored Redis value, defaulting to
`50.0` when the key is absent or Redis is unavailable. -/
def effective_limit (redisAvailable : Bool) (stored : Option ℚ) : ℚ :=
  if redisAvailable then stored.getD 50 else 50

/-! ### Saga steps -/

/-- `_step_validate_request` (saga_orchestrator.py lines 74-93).  `amount` is
`invoice_data.get("amount")`: `none` models a missing key, and Python's
`if not invoice_data.get("amount")` is true exactly for a missing key or the
falsy float `0.0` — a negative amount passes that test.  Then the limit is
read once and `float(amount) > limit` pauses. -/
def step_validate_request (redisAvailable : Bool) (storedLimit : Option ℚ)
    (amount : Option ℚ) : String :=
  match amount with
  | none => "REQUIRES_APPROVAL"
  | some a =>
    if a = 0 then "REQUIRES_APPROVAL"
    else
      let limit := effective_limit redisAvailable storedLimit
      if a > limit then "REQUIRES_APPROVAL" else "APPROVED"

/-- `_step_reserve_funds_db` (saga_orchestrator.py lines 96-100): the body is
`await asyncio.sleep(0.1); return True` — no ledger record is written and the
step never fails. -/
def step_reserve_funds_db : Bool := true

/-- The fixed placeholder the DEMO HACK block substitutes for any
`vendor_wallet` that does not start with `"0x"`
(saga_orchestrator.py lines 106-110). -/
def demo_address : String := "0x104F9C75c9F170e85D299F13766243838787Fa12"

/-- `_step_execute_chain_transaction` (saga_orchestrator.py lines 103-180).
Order of the source: placeholder substitution (outside the `try`), key load
(a missing key raises, caught below as `FAILED_CHAIN_ERROR`), balance read,
liquidity check (alerting Redis and the email sink and returning
`FAILED_NO_LIQUIDITY` before any nonce read), then nonce read, build, sign
and broadcast; any exception in the `try` yields
`"FAILED_CHAIN_ERROR: " ++ message`. -/
def step_execute_chain_transaction (env : ChainEnv) (email : EmailEnv)
    (redisAvailable : Bool) (vendor_wallet : String) (amount : ℚ) :
    String × ChainTrace :=
  let wallet :=
    if matchesAt "0x".toList vendor_wallet.toList then vendor_wallet else demo_address
  match env.privateKey with
  | none => ("FAILED_CHAIN_ERROR: CRITICAL: Private Key missing", ChainTrace.empty)
  | some _ =>
    let treasury_balance := env.balance
    if treasury_balance < amount then
      let error_msg := "INSUFFICIENT LIQUIDITY: Have " ++ toString treasury_balance
        ++ ", Need " ++ toString amount
      let delivered := send_alert email "INSUFFICIENT_LIQUIDITY" error_msg
      ("FAILED_NO_LIQUIDITY",
        ⟨0, [], [⟨"INSUFFICIENT_LIQUIDITY", error_msg, delivered⟩],
          if redisAvailable then [error_msg] else []⟩)
    else
      match env.nonceResult with
      | .error msg => ("FAILED_CHAIN_ERROR: " ++ msg, ChainTrace.empty)
      | .ok nonce =>
        match env.sendResult with
        | .error msg => ("FAILED_CHAIN_ERROR: " ++ msg, ⟨1, [], [], []⟩)
        | .ok tx_hex => (tx_hex, ⟨1, [⟨wallet, amount, nonce⟩], [], []⟩)

/-- `execute_payment_saga` (saga_orchestrator.py lines 40-71).  The returned
dict is an association list: `{"status": "PAUSED", "reason": ...}`,
`{"status": "FAILED", "reason": ...}` or `{"status": "SUCCESS", "tx_hash":
...}`.  A chain-step result containing `"FAILED"` is classified as a failure
(line 64); the surrounding `except` is unreachable because the step catches
every exception itself. -/
def execute_payment_saga (env : SagaEnv) (vendor_wallet : String) (amount : ℚ) :
    List (String × String) × SagaTrace :=
  let validation_status :=
    step_validate_request env.redisAvailable env.policyLimit (some amount)
  if validation_status ≠ "APPROVED" then
    ([("status", "PAUSED"), ("reason", validation_status)],
      ⟨0, [], ChainTrace.empty⟩)
  else if step_reserve_funds_db = false then
    ([("status", "FAILED"), ("reason", "DB_RESERVATION_FAILED")],
      ⟨1, [], ChainTrace.empty⟩)
  else
    let r := step_execute_chain_transaction env.chain env.email
      env.redisAvailable vendor_wallet amount
    if strContains r.1 "FAILED" = true then
      ([("status", "FAILED"), ("reason", r.1)], ⟨1, [], r.2⟩)
    else
      ([("status", "SUCCESS"), ("tx_hash", r.1)], ⟨1, [], r.2⟩)

/-! ### Invoice handler (`backend/app.py`, post-parsing part) -/

/-- One row of `TransactionModel` as `process_invoice` writes it into
Postgres (app.py lines 252-266). -/
structure TransactionRow where
  vendor : String
  amount : ℚ
  status : String
  tx_hash : Option String
  reason : Option String
  balance_snapshot : ℚ
deriving DecidableEq

/-- One entry of the `treasury:daily_logs` live feed (app.py lines 271-282);
the wall-clock timestamp is omitted. -/
structure LogEntry where
  event : String
  balance : ℚ
  status : String
  tx_hash : Option String
  required : Option ℚ
  reason : Option String
deriving DecidableEq

/-- One approval ticket as pushed onto `treasury:approvals`
(app.py lines 286-294). -/
structure ApprovalTicket where
  id : String
  vendor : String
  amount : ℚ
  reason : Option String
  status : String
deriving DecidableEq

/-- Environment of one `process_invoice` call beyond the saga's: the app's
own `EmailService`, the balance snapshot `fetch_treasury_balance` returns,
whether the Postgres write succeeds (a failure is logged and execution
continues, app.py lines 267-269), and the `uuid.uuid4()` draw used for the
approval id. -/
structure ProcessEnv where
  saga : SagaEnv
  appEmail : EmailEnv
  snapshotBalance : ℚ
  dbOk : Bool
  uuid : String

/-- Side effects of one `process_invoice` call: the saga's own trace, the
Postgres rows written, the `treasury:daily_logs` entries, the approval
tickets pushed onto `treasury:approvals`, and the app-level email alerts. -/
structure ProcessTrace where
  sagaTrace : SagaTrace
  dbRows : List TransactionRow
  dailyLogs : List LogEntry
  approvals : List ApprovalTicket
  appEmailAlerts : List EmailAlert

/-- `process_invoice` after parsing (app.py lines 229-303): run the saga,
classify its status (lines 236-250), write the Postgres row and the live-feed
entry, and on `REQUIRES_APPROVAL` push exactly one ticket, send the approval
email and answer `{"status": "PAUSED_FOR_APPROVAL", "approval_id": ...}`;
otherwise answer `{"status": ..., "tx_hash": ..., "reason": ...}` from the
saga result.  The response dict is an association list with `Option String`
values (`none` is JSON `null`). -/
def process_invoice (env : ProcessEnv) (vendor : String) (amount : ℚ) :
    List (String × Option String) × ProcessTrace :=
  let r := execute_payment_saga env.saga vendor amount
  let result := r.1
  let rstatus := (result.lookup "status").getD ""
  let txd :=
    if rstatus = "SUCCESS" then
      ("CONFIRMED", result.lookup "tx_hash", (none : Option String),
        "Payment to " ++ vendor)
    else if rstatus = "PAUSED" ∨ rstatus = "REQUIRES_APPROVAL" then
      ("REQUIRES_APPROVAL", none, some "Exceeds Policy Limit",
        "Invoice for " ++ vendor)
    else
      ("FAILED", none, result.lookup "reason", "Invoice for " ++ vendor)
  let tx_status := txd.1
  let tx_hash := txd.2.1
  let reason := txd.2.2.1
  let event_label := txd.2.2.2
  let dbRows := if env.dbOk then
      [TransactionRow.mk vendor amount tx_status tx_hash reason env.snapshotBalance]
    else []
  let logs := [LogEntry.mk event_label env.snapshotBalance tx_status tx_hash
    (if tx_status = "REQUIRES_APPROVAL" then some amount else none) reason]
  if tx_status = "REQUIRES_APPROVAL" then
    let body := "Invoice from " ++ vendor ++ " for $" ++ toString amount
      ++ " exceeds the auto-approval limit. Please review."
    let delivered := send_alert env.appEmail "POLICY_APPROVAL_NEEDED" body
    ([("status", some "PAUSED_FOR_APPROVAL"), ("approval_id", some env.uuid)],
      ⟨r.2, dbRows, logs, [ApprovalTicket.mk env.uuid vendor amount reason "PENDING"],
        [EmailAlert.mk "POLICY_APPROVAL_NEEDED" body delivered]⟩)
  else
    ([("status", some rstatus), ("tx_hash", tx_hash), ("reason", reason)],
      ⟨r.2, dbRows, logs, [], []⟩)

/-! ### Concrete instances used by witnesses and counterexamples -/

/-- An email environment with no credentials configured (send_alert returns
`false` without contacting SMTP). -/
def baseEmail : EmailEnv := ⟨none, none, none, .ok ()⟩

/-- A chain environment with the signing key present, balance 100, nonce 7
and a successful broadcast returning the hash `"0xabc123"`. -/
def okChain : ChainEnv := ⟨some "pk", some "0xT", 100, .ok 7, .ok "0xabc123"⟩

/-- Like `okChain` but with balance 10 (below the amounts used here). -/
def lowChain : ChainEnv := ⟨some "pk", some "0xT", 10, .ok 7, .ok "0xabc123"⟩

/-- Saga environment: no Redis (default limit 50), healthy chain. -/
def okEnv : SagaEnv := ⟨false, none, okChain, baseEmail⟩

/-- Saga environment: no Redis (default limit 50), balance 10. -/
def lowEnv : SagaEnv := ⟨false, none, lowChain, baseEmail⟩

/-- Process environment over `okEnv` with snapshot balance 100, a working
database and approval-id draw `"tick-1"`. -/
def procEnv : ProcessEnv := ⟨okEnv, baseEmail, 100, true, "tick-1"⟩

/-- The retry configuration with the source's default values
(retry_logic.py lines 16-20). -/
def defaultCfg : RetryConfig := ⟨3, 1, 60, 2, true⟩

/-- A retry configuration with a negative `max_attempts`. -/
def negCfg : RetryConfig := ⟨-2, 1, 60, 2, true⟩

/-- An operation that fails on every attempt with the attempt index as the
exception, so the propagated exception identifies the attempt it came from. -/
def failOp (n : Nat) : Except Nat Nat := .error n

/-- An operation that fails transiently on attempt 0 and succeeds with 42
from attempt 1 on. -/
def onceOp (n : Nat) : Except Nat Nat := if n = 0 then .error 0 else .ok 42

/-- A retriable-exceptions predicate matching everything (the source default
`retriable_exceptions=(Exception,)`). -/
def alwaysRetriable (e : Nat) : Bool := true

/-- The jitter draw stream that always returns 0 (a legal value of
`random.random()`). -/
def zeroDraws (n : Nat) : ℚ := 0

/-- The indexing error family: attempt `n` raises exception `n`. -/
def idErr (n : Nat) : Nat := n

/-- The constant error family used with `onceOp`. -/
def zeroErr (n : Nat) : Nat := 0

/-! ### Validation step: helper lemmas and claim C3 -/

/-- `_step_validate_request` returns one of exactly two strings. -/
theorem step_validate_request_cases (ra : Bool) (ls : Option ℚ) (a : Option ℚ) :
    step_validate_request ra ls a = "APPROVED"
    ∨ step_validate_request ra ls a = "REQUIRES_APPROVAL" := by
  rcases a with _ | x
  · exact Or.inr rfl
  · simp only [step_validate_request]
    split_ifs <;> first | exact Or.inl rfl | exact Or.inr rfl

/-- An amount above the effective limit is never auto-approved. -/
theorem validate_over_limit (ra : Bool) (ls : Option ℚ) (a : ℚ)
    (h : effective_limit ra ls < a) :
    step_validate_request ra ls (some a) = "REQUIRES_APPROVAL" := by
  simp only [step_validate_request]
  by_cases h0 : a = 0
  · rw [if_pos h0]
  · rw [if_neg h0, if_pos h]

/-- A nonzero amount at or below the effective limit is auto-approved. -/
theorem validate_within_limit (ra : Bool) (ls : Option ℚ) (a : ℚ) (h0 : a ≠ 0)
    (h1 : a ≤ effective_limit ra ls) :
    step_validate_request ra ls (some a) = "APPROVED" := by
  simp only [step_validate_request]
  rw [if_neg h0, if_neg (not_lt.mpr h1)]

/-- C3 counterexample: with the default limit 50 in force, the amount `-5` is
validated as `"APPROVED"` — the claim says every negative amount must require
approval.  Python's `not invoice_data.get("amount")` is false for `-5.0`, and
`-5.0 > 50.0` is false, so the code falls through to approval. -/
theorem validate_negative_amount_approved :
    step_validate_request false none (some (-5)) = "APPROVED" := by decide

/-- C3 (amended): `_step_validate_request` reads the stored limit through
`effective_limit` (the stored value once, defaulting to 50 when absent) and
returns `"REQUIRES_APPROVAL"` exactly when the amount is missing, is zero
(Python falsiness, not non-positivity) or strictly exceeds the limit; every
other amount — negative amounts included — returns `"APPROVED"`. -/
theorem step_validate_request_characterization (ra : Bool) (ls : Option ℚ)
    (a : Option ℚ) :
    (step_validate_request ra ls a = "REQUIRES_APPROVAL" ↔
      a = none ∨ a = some 0 ∨ ∃ x, a = some x ∧ effective_limit ra ls < x)
    ∧ (step_validate_request ra ls a = "APPROVED"
        ∨ step_validate_request ra ls a = "REQUIRES_APPROVAL") := by
  refine ⟨?_, step_validate_request_cases ra ls a⟩
  rcases a with _ | x
  · simp [step_validate_request]
  · by_cases h0 : x = 0
    · subst h0
      simp [step_validate_request]
    · by_cases h1 : effective_limit ra ls < x
      · rw [validate_over_limit ra ls x h1]
        simp [h0, h1]
      · rw [validate_within_limit ra ls x h0 (not_lt.mp h1)]
        simp [h0, h1]

/-! ### Saga termination shapes: claims C1, C5, C2 -/

/-- Over the limit, the saga pauses immediately: full equation, including the
empty trace (no reservation call, no chain activity). -/
theorem saga_over_limit_eq (env : SagaEnv) (vw : String) (a : ℚ)
    (h : effective_limit env.redisAvailable env.policyLimit < a) :
    execute_payment_saga env vw a
      = ([("status", "PAUSED"), ("reason", "REQUIRES_APPROVAL")],
          ⟨0, [], ChainTrace.empty⟩) := by
  simp only [execute_payment_saga,
    validate_over_limit env.redisAvailable env.policyLimit a h]
  rw [if_pos (by decide : ("REQUIRES_APPROVAL" : String) ≠ "APPROVED")]

/-- C1: for every payment request whose amount strictly exceeds the effective
policy limit, `execute_payment_saga` terminates with status `"PAUSED"`, the
caller (`process_invoice`) enqueues exactly one approval ticket onto
`treasury:approvals`, and the reservation step is never reached — no
reservation record is ever created. -/
theorem over_limit_pauses_one_ticket_no_reservation (env : ProcessEnv)
    (vendor : String) (amount : ℚ)
    (h : effective_limit env.saga.redisAvailable env.saga.policyLimit < amount) :
    (execute_payment_saga env.saga vendor amount).1.lookup "status" = some "PAUSED"
    ∧ (process_invoice env vendor amount).2.approvals
        = [ApprovalTicket.mk env.uuid vendor amount (some "Exceeds Policy Limit") "PENDING"]
    ∧ (execute_payment_saga env.saga vendor amount).2.reserveCalls = 0
    ∧ (execute_payment_saga env.saga vendor amount).2.reservations = [] := by
  have hs := saga_over_limit_eq env.saga vendor amount h
  refine ⟨by rw [hs]; rfl, ?_, by rw [hs], by rw [hs]⟩
  simp +decide [process_invoice, hs, List.lookup]

/-- C1 witness: amount 75 against the default limit 50. -/
theorem over_limit_pauses_one_ticket_no_reservation_witness :
    effective_limit procEnv.saga.redisAvailable procEnv.saga.policyLimit < 75
    ∧ ((execute_payment_saga procEnv.saga "Acme" 75).1.lookup "status" = some "PAUSED"
      ∧ (process_invoice procEnv "Acme" 75).2.approvals
          = [ApprovalTicket.mk procEnv.uuid "Acme" 75 (some "Exceeds Policy Limit") "PENDING"]
      ∧ (execute_payment_saga procEnv.saga "Acme" 75).2.reserveCalls = 0
      ∧ (execute_payment_saga procEnv.saga "Acme" 75).2.reservations = []) :=
  ⟨by decide, over_limit_pauses_one_ticket_no_reservation procEnv "Acme" 75 (by decide)⟩

/-- C5 (amended): every `execute_payment_saga` result is exactly one of three
shapes — `PAUSED` with the human-readable reason `"REQUIRES_APPROVAL"` and no
ticket-id field (the approval id exists only in the caller's response),
`SUCCESS` with a settlement reference, or `FAILED` with a reason string
containing the machine-checkable marker `"FAILED"`. -/
theorem saga_outcome_shape (env : SagaEnv) (vw : String) (a : ℚ) :
    (execute_payment_saga env vw a).1
        = [("status", "PAUSED"), ("reason", "REQUIRES_APPROVAL")]
    ∨ (∃ h, (execute_payment_saga env vw a).1
          = [("status", "SUCCESS"), ("tx_hash", h)]
        ∧ strContains h "FAILED" = false)
    ∨ (∃ r, (execute_payment_saga env vw a).1
          = [("status", "FAILED"), ("reason", r)]
        ∧ strContains r "FAILED" = true) := by
  rcases step_validate_request_cases env.redisAvailable env.policyLimit (some a)
    with hv | hv
  · simp only [execute_payment_saga, hv]
    rw [if_neg (by decide : ¬ (("APPROVED" : String) ≠ "APPROVED"))]
    rw [if_neg (by decide : ¬ (step_reserve_funds_db = false))]
    by_cases hc : strContains (step_execute_chain_transaction env.chain env.email
        env.redisAvailable vw a).1 "FAILED" = true
    · rw [if_pos hc]
      exact Or.inr (Or.inr ⟨_, rfl, hc⟩)
    · rw [if_neg hc]
      exact Or.inr (Or.inl ⟨_, rfl, by simpa using hc⟩)
  · simp only [execute_payment_saga, hv]
    rw [if_pos (by decide : ("REQUIRES_APPROVAL" : String) ≠ "APPROVED")]
    exact Or.inl rfl

/-- C5 counterexample: a paused saga result carries only the keys `status`
and `reason`; it holds no ticket-id reference of any kind (`ticket_id` and
`approval_id` both look up to `none`) — the ticket id is generated later by
`process_invoice` and appears only in the HTTP response. -/
theorem paused_outcome_lacks_ticket_reference :
    (execute_payment_saga okEnv "0xV" 75).1
        = [("status", "PAUSED"), ("reason", "REQUIRES_APPROVAL")]
    ∧ (execute_payment_saga okEnv "0xV" 75).1.map Prod.fst = ["status", "reason"]
    ∧ (execute_payment_saga okEnv "0xV" 75).1.lookup "ticket_id" = none
    ∧ (execute_payment_saga okEnv "0xV" 75).1.lookup "approval_id" = none := by
  decide

/-- C2, evaluated at the failing input: `"Acme Supplies"` is not a chain
address, yet the chain step silently rewrites the payee to the fixed
placeholder `demo_address` and broadcasts to it, and the saga reports
`SUCCESS` — there is no `IdentifierResolutionError` failure path in the code
(saga_orchestrator.py lines 106-110, the `DEMO HACK` block). -/
theorem chain_step_silently_substitutes_placeholder :
    (execute_payment_saga okEnv "Acme Supplies" 45).1
        = [("status", "SUCCESS"), ("tx_hash", "0xabc123")]
    ∧ (execute_payment_saga okEnv "Acme Supplies" 45).2.chain.broadcasts
        = [Broadcast.mk demo_address 45 7] := by
  decide

/-! ### Liquidity failure: claim C4 -/

/-- C4 (amended): for every request with a nonzero amount at or below the
effective limit, the signing key present and the on-chain balance strictly
below the amount, the saga terminates `FAILED` with reason
`"FAILED_NO_LIQUIDITY"` (the code's spelling of `INSUFFICIENT_LIQUIDITY`),
no nonce is fetched and nothing is broadcast, and exactly one notification
(category `INSUFFICIENT_LIQUIDITY`) goes to the email sink.  No reservation
record exists at all — the reservation step writes nothing, so no record can
end in state `RELEASED`. -/
theorem liquidity_failure_outcome (env : SagaEnv) (vw : String) (a : ℚ)
    (pk : String) (h0 : a ≠ 0)
    (h1 : a ≤ effective_limit env.redisAvailable env.policyLimit)
    (h2 : env.chain.privateKey = some pk)
    (h3 : env.chain.balance < a) :
    (execute_payment_saga env vw a).1
        = [("status", "FAILED"), ("reason", "FAILED_NO_LIQUIDITY")]
    ∧ (execute_payment_saga env vw a).2.chain.nonceFetches = 0
    ∧ (execute_payment_saga env vw a).2.chain.broadcasts = []
    ∧ (execute_payment_saga env vw a).2.chain.emailAlerts.map EmailAlert.category
        = ["INSUFFICIENT_LIQUIDITY"]
    ∧ (execute_payment_saga env vw a).2.reservations = [] := by
  have hchain : (step_execute_chain_transaction env.chain env.email
      env.redisAvailable vw a).1 = "FAILED_NO_LIQUIDITY"
      ∧ (step_execute_chain_transaction env.chain env.email
          env.redisAvailable vw a).2.nonceFetches = 0
      ∧ (step_execute_chain_transaction env.chain env.email
          env.redisAvailable vw a).2.broadcasts = []
      ∧ (step_execute_chain_transaction env.chain env.email
          env.redisAvailable vw a).2.emailAlerts.map EmailAlert.category
          = ["INSUFFICIENT_LIQUIDITY"] := by
    simp only [step_execute_chain_transaction, h2]
    rw [if_pos h3]
    exact ⟨rfl, rfl, rfl, rfl⟩
  simp only [execute_payment_saga,
    validate_within_limit env.redisAvailable env.policyLimit a h0 h1]
  rw [if_neg (by decide : ¬ (("APPROVED" : String) ≠ "APPROVED"))]
  rw [if_neg (by decide : ¬ (step_reserve_funds_db = false))]
  rw [if_pos (by rw [hchain.1]; decide)]
  exact ⟨by rw [hchain.1], hchain.2.1, hchain.2.2.1, hchain.2.2.2, rfl⟩

/-- C4 witness: amount 45 against the default limit 50 with balance 10. -/
theorem liquidity_failure_outcome_witness :
    ((45 : ℚ) ≠ 0 ∧ (45 : ℚ) ≤ effective_limit lowEnv.redisAvailable lowEnv.policyLimit
      ∧ lowEnv.chain.privateKey = some "pk" ∧ lowEnv.chain.balance < 45)
    ∧ ((execute_payment_saga lowEnv "0xV" 45).1
        = [("status", "FAILED"), ("reason", "FAILED_NO_LIQUIDITY")]
      ∧ (execute_payment_saga lowEnv "0xV" 45).2.chain.nonceFetches = 0
      ∧ (execute_payment_saga lowEnv "0xV" 45).2.chain.broadcasts = []
      ∧ (execute_payment_saga lowEnv "0xV" 45).2.chain.emailAlerts.map EmailAlert.category
          = ["INSUFFICIENT_LIQUIDITY"]
      ∧ (execute_payment_saga lowEnv "0xV" 45).2.reservations = []) :=
  ⟨⟨by decide, by decide, rfl, by decide⟩,
    liquidity_failure_outcome lowEnv "0xV" 45 "pk" (by decide) (by decide) rfl (by decide)⟩

/-- C4 counterexample: at `amount = 45`, `limit = 50` (default), `balance =
10` the saga does fail with `FAILED_NO_LIQUIDITY` and alerts once, but the
ledger trace holds no reservation record whatsoever — in particular no record
in state `RELEASED`, which the claim asserts the reservation ends in. -/
theorem liquidity_failure_no_released_reservation :
    (execute_payment_saga lowEnv "0xV" 45).1
        = [("status", "FAILED"), ("reason", "FAILED_NO_LIQUIDITY")]
    ∧ (execute_payment_saga lowEnv "0xV" 45).2.chain.emailAlerts.map EmailAlert.category
        = ["INSUFFICIENT_LIQUIDITY"]
    ∧ (execute_payment_saga lowEnv "0xV" 45).2.reservations = []
    ∧ (execute_payment_saga lowEnv "0xV" 45).2.reservations.filter
        (fun r => r.state == ReservationState.RELEASED) = [] := by
  decide

/-! ### Notification sink behaviour: claim C9 -/

/-- The first component (the returned string) of the chain step does not
depend on the email environment: `send_alert`'s boolean lands only in the
trace and is never branched on. -/
theorem chain_fst_email_indep (c : ChainEnv) (e₁ e₂ : EmailEnv) (ra : Bool)
    (vw : String) (a : ℚ) :
    (step_execute_chain_transaction c e₁ ra vw a).1
      = (step_execute_chain_transaction c e₂ ra vw a).1 := by
  simp only [step_execute_chain_transaction]
  cases c.privateKey with
  | none => rfl
  | some pk =>
    by_cases hb : c.balance < a
    · simp only [if_pos hb]
    · simp only [if_neg hb]

/-- C9: `send_alert` always returns a boolean — `false` when credentials are
missing and `false` when the SMTP session raises, never an exception — and
the saga's returned outcome is identical for any two email environments: a
notification failure never changes the saga's result. -/
theorem send_alert_bool_and_outcome_independent :
    (∀ (u p : String) (t : Option String) (m it d : String),
        send_alert ⟨some u, some p, t, Except.error m⟩ it d = false)
    ∧ (∀ (p t : Option String) (r : Except String Unit) (it d : String),
        send_alert ⟨none, p, t, r⟩ it d = false)
    ∧ (∀ (env : SagaEnv) (e₁ e₂ : EmailEnv) (vw : String) (a : ℚ),
        (execute_payment_saga ⟨env.redisAvailable, env.policyLimit, env.chain, e₁⟩ vw a).1
          = (execute_payment_saga ⟨env.redisAvailable, env.policyLimit, env.chain, e₂⟩ vw a).1) := by
  refine ⟨fun u p t m it d => rfl, fun p t r it d => rfl,
    fun env e₁ e₂ vw a => ?_⟩
  simp only [execute_payment_saga]
  rcases step_validate_request_cases env.redisAvailable env.policyLimit (some a)
    with hv | hv <;> rw [hv]
  · rw [if_neg (by decide : ¬ (("APPROVED" : String) ≠ "APPROVED"))]
    rw [if_neg (by decide : ¬ (("APPROVED" : String) ≠ "APPROVED"))]
    rw [if_neg (by decide : ¬ (step_reserve_funds_db = false))]
    rw [if_neg (by decide : ¬ (step_reserve_funds_db = false))]
    have hf := chain_fst_email_indep env.chain e₁ e₂ env.redisAvailable vw a
    rw [hf]
    split_ifs <;> rfl
  · rw [if_pos (by decide : ("REQUIRES_APPROVAL" : String) ≠ "APPROVED")]
    rw [if_pos (by decide : ("REQUIRES_APPROVAL" : String) ≠ "APPROVED")]

/-! ### Retry helper: claims C7, C6, C8, C10 -/

/-- C7: for every attempt index `n`, `get_delay` equals
`min(initial_delay * exponential_base^n, max_delay)` when jitter is disabled,
and with jitter enabled it equals that clamped value multiplied by the factor
`0.5 + draw`, which for every legal draw in `[0,1)` lies in `[0.5, 1.5)`. -/
theorem get_delay_formula (cfg : RetryConfig) (draw : ℚ) (n : Nat)
    (h0 : 0 ≤ draw) (h1 : draw < 1) :
    (cfg.jitter = false →
      cfg.get_delay draw n
        = min (cfg.initial_delay * cfg.exponential_base ^ n) cfg.max_delay)
    ∧ (cfg.jitter = true →
      cfg.get_delay draw n
        = min (cfg.initial_delay * cfg.exponential_base ^ n) cfg.max_delay
            * (1/2 + draw)
      ∧ 1/2 ≤ 1/2 + draw ∧ 1/2 + draw < 3/2) := by
  constructor
  · intro hj
    simp [RetryConfig.get_delay, hj, min_def]
  · intro hj
    refine ⟨by simp [RetryConfig.get_delay, hj, min_def], by linarith, by linarith⟩

/-- C7 witness: the default configuration at attempt 2 with draw `1/3`. -/
theorem get_delay_formula_witness :
    (0 ≤ (1:ℚ)/3 ∧ (1:ℚ)/3 < 1)
    ∧ ((defaultCfg.jitter = false →
        defaultCfg.get_delay (1/3) 2
          = min (defaultCfg.initial_delay * defaultCfg.exponential_base ^ 2)
              defaultCfg.max_delay)
      ∧ (defaultCfg.jitter = true →
        defaultCfg.get_delay (1/3) 2
          = min (defaultCfg.initial_delay * defaultCfg.exponential_base ^ 2)
              defaultCfg.max_delay * (1/2 + 1/3)
        ∧ 1/2 ≤ 1/2 + (1:ℚ)/3 ∧ 1/2 + (1:ℚ)/3 < 3/2)) :=
  ⟨⟨by norm_num, by norm_num⟩,
    get_delay_formula defaultCfg (1/3) 2 (by norm_num) (by norm_num)⟩

/-- If every remaining attempt fails with a retriable exception, the loop
performs them all and ends holding the last attempt's exception. -/
theorem retryGo_all_fail {E A : Type} (op : Nat → Except E A)
    (retriable : E → Bool) (cfg : RetryConfig) (draws : Nat → ℚ)
    (err : Nat → E) :
    ∀ (remaining attempt : Nat) (last : Option E),
      0 < remaining →
      (∀ i, i < remaining → op (attempt + i) = .error (err (attempt + i))
        ∧ retriable (err (attempt + i)) = true) →
      (retryGo op retriable cfg draws attempt remaining last).outcome
          = .raised (err (attempt + remaining - 1))
      ∧ (retryGo op retriable cfg draws attempt remaining last).calls
          = remaining := by
  intro remaining
  induction remaining with
  | zero => intro attempt last h; exact absurd h (lt_irrefl 0)
  | succ r ih =>
    intro attempt last _ hfail
    have h0 := hfail 0 (Nat.succ_pos r)
    rw [Nat.add_zero] at h0
    rcases Nat.eq_zero_or_pos r with hr | hr
    · subst hr
      refine ⟨?_, ?_⟩ <;> simp [retryGo, h0.1, h0.2]
    · have hshift : ∀ i, i < r → op (attempt + 1 + i) = .error (err (attempt + 1 + i))
          ∧ retriable (err (attempt + 1 + i)) = true := by
        intro i hi
        have h' := hfail (i + 1) (by omega)
        rwa [show attempt + (i + 1) = attempt + 1 + i by omega] at h'
      have ih' := ih (attempt + 1) (some (err attempt)) hr hshift
      simp only [retryGo, h0.1, h0.2, if_true]
      constructor
      · rw [ih'.1]
        rw [show attempt + 1 + r - 1 = attempt + (r + 1) - 1 by omega]
      · rw [ih'.2]

/-- C6: when the operation raises a retriable exception on every one of the
`max_attempts ≥ 1` attempts, `retry_async` invokes it exactly `max_attempts`
times and then raises the exception observed on the last attempt (index
`max_attempts - 1`), not an earlier one and not a substitute. -/
theorem retry_exhaustion_propagates_last {E A : Type} (op : Nat → Except E A)
    (retriable : E → Bool) (cfg : RetryConfig) (draws : Nat → ℚ)
    (err : Nat → E) (hpos : 1 ≤ cfg.max_attempts)
    (hfail : ∀ i, i < cfg.max_attempts.toNat →
      op i = .error (err i) ∧ retriable (err i) = true) :
    (retry_async op retriable cfg draws).calls = cfg.max_attempts.toNat
    ∧ (retry_async op retriable cfg draws).outcome
        = .raised (err (cfg.max_attempts.toNat - 1)) := by
  have hn : 0 < cfg.max_attempts.toNat := by omega
  have h := retryGo_all_fail op retriable cfg draws err cfg.max_attempts.toNat
    0 none hn (by simpa using hfail)
  rw [Nat.zero_add] at h
  exact ⟨h.2, h.1⟩

/-- C6 witness: three attempts, attempt `n` raising exception `n`; the run
makes 3 calls and raises exception 2, the one of the last attempt. -/
theorem retry_exhaustion_propagates_last_witness :
    (retry_async failOp alwaysRetriable defaultCfg zeroDraws).calls = 3
    ∧ (retry_async failOp alwaysRetriable defaultCfg zeroDraws).outcome
        = .raised 2 := by
  have h := retry_exhaustion_propagates_last failOp alwaysRetriable defaultCfg
    zeroDraws idErr (by decide) (fun i hi => ⟨rfl, rfl⟩)
  simpa [defaultCfg, idErr] using h

/-- If the first `k` attempts fail retriably and attempt `k` succeeds (with
`k` attempts still within budget), the loop returns the success after `k + 1`
invocations, having slept exactly the `get_delay` of each failed attempt. -/
theorem retryGo_success {E A : Type} (op : Nat → Except E A)
    (retriable : E → Bool) (cfg : RetryConfig) (draws : Nat → ℚ)
    (err : Nat → E) (a : A) :
    ∀ (k attempt remaining : Nat) (last : Option E),
      k < remaining →
      (∀ i, i < k → op (attempt + i) = .error (err (attempt + i))
        ∧ retriable (err (attempt + i)) = true) →
      op (attempt + k) = .ok a →
      retryGo op retriable cfg draws attempt remaining last
        = ⟨.ok a, k + 1,
            (List.range k).map
              (fun i => cfg.get_delay (draws (attempt + i)) (attempt + i))⟩ := by
  intro k
  induction k with
  | zero =>
    intro attempt remaining last hlt hfail hok
    rw [Nat.add_zero] at hok
    obtain ⟨r, rfl⟩ : ∃ r, remaining = r + 1 := ⟨remaining - 1, by omega⟩
    simp [retryGo, hok]
  | succ k ih =>
    intro attempt remaining last hlt hfail hok
    obtain ⟨r, rfl⟩ : ∃ r, remaining = r + 1 := ⟨remaining - 1, by omega⟩
    have h0 := hfail 0 (Nat.succ_pos k)
    rw [Nat.add_zero] at h0
    have hr0 : r ≠ 0 := by omega
    have hshift : ∀ i, i < k → op (attempt + 1 + i) = .error (err (attempt + 1 + i))
        ∧ retriable (err (attempt + 1 + i)) = true := by
      intro i hi
      have h' := hfail (i + 1) (by omega)
      rwa [show attempt + (i + 1) = attempt + 1 + i by omega] at h'
    have hok' : op (attempt + 1 + k) = .ok a := by
      rwa [show attempt + (k + 1) = attempt + 1 + k by omega] at hok
    have ih' := ih (attempt + 1) r (some (err attempt)) (by omega) hshift hok'
    simp only [retryGo, h0.1, h0.2, if_true, ih', if_neg hr0]
    refine congrArg (RetryRun.mk (.ok a) (k + 1 + 1)) ?_
    rw [List.range_succ_eq_map, List.map_cons, List.map_map]
    rw [Nat.add_zero]
    refine congrArg (List.cons (cfg.get_delay (draws attempt) attempt)) ?_
    apply List.map_congr_left
    intro i hi
    have : attempt + 1 + i = attempt + (i + 1) := by omega
    simp [Function.comp, this]

/-- Bounds on one backoff delay: under a sane configuration
(`0 < initial_delay ≤ max_delay`, `exponential_base ≥ 1`) and a legal draw,
the delay always lies in `[initial_delay/2, 3/2 * max_delay)`; with jitter
disabled it lies in `[initial_delay, max_delay]`. -/
theorem get_delay_bounds (cfg : RetryConfig) (draw : ℚ) (n : Nat)
    (h0 : 0 < cfg.initial_delay) (h1 : cfg.initial_delay ≤ cfg.max_delay)
    (h2 : 1 ≤ cfg.exponential_base) (hd0 : 0 ≤ draw) (hd1 : draw < 1) :
    (cfg.initial_delay / 2 ≤ cfg.get_delay draw n
      ∧ cfg.get_delay draw n < 3/2 * cfg.max_delay)
    ∧ (cfg.jitter = false →
        cfg.initial_delay ≤ cfg.get_delay draw n
        ∧ cfg.get_delay draw n ≤ cfg.max_delay) := by
  have hpow : (1:ℚ) ≤ cfg.exponential_base ^ n := one_le_pow₀ h2
  have hA : cfg.initial_delay ≤ cfg.initial_delay * cfg.exponential_base ^ n :=
    le_mul_of_one_le_right h0.le hpow
  have key : ∀ D : ℚ, cfg.initial_delay ≤ D → D ≤ cfg.max_delay →
      (cfg.initial_delay / 2 ≤ (if cfg.jitter = true then D * (1/2 + draw) else D)
        ∧ (if cfg.jitter = true then D * (1/2 + draw) else D) < 3/2 * cfg.max_delay)
      ∧ (cfg.jitter = false →
          cfg.initial_delay ≤ (if cfg.jitter = true then D * (1/2 + draw) else D)
          ∧ (if cfg.jitter = true then D * (1/2 + draw) else D) ≤ cfg.max_delay) := by
    intro D hlb hub
    have hDpos : 0 < D := lt_of_lt_of_le h0 hlb
    by_cases hj : cfg.jitter = true
    · simp only [if_pos hj]
      refine ⟨⟨?_, ?_⟩, ?_⟩
      · nlinarith [mul_nonneg hDpos.le hd0]
      · nlinarith [mul_lt_mul_of_pos_left hd1 hDpos]
      · intro hf
        rw [hf] at hj
        exact absurd hj (by decide)
    · simp only [if_neg hj]
      exact ⟨⟨by linarith, by linarith⟩, fun _ => ⟨hlb, hub⟩⟩
  simp only [RetryConfig.get_delay]
  exact key _ (by split_ifs with h; exacts [hA, h1])
    (by split_ifs with h; exacts [h, le_refl _])

/-- C8 (amended): with transient failures on the first `k < max_attempts`
attempts and success thereafter, `retry_async` returns the success after
`k + 1` invocations and sleeps exactly `k` delays; under a sane
configuration (`0 < initial_delay ≤ max_delay`, `exponential_base ≥ 1`) and
legal jitter draws, each slept delay lies in `[initial_delay/2,
(3/2)·max_delay)` — and in `[initial_delay, max_delay]` exactly when jitter is
disabled.  The jitter factor in `[0.5, 1.5)` can push a delay below
`initial_delay` and above `max_delay`, so the claimed interval
`[initial_delay, max_delay]` holds only without jitter. -/
theorem retry_transient_success_delay_bounds {E A : Type}
    (op : Nat → Except E A) (retriable : E → Bool) (cfg : RetryConfig)
    (draws : Nat → ℚ) (err : Nat → E) (a : A) (k : Nat)
    (hk : k < cfg.max_attempts.toNat)
    (hfail : ∀ i, i < k → op i = .error (err i) ∧ retriable (err i) = true)
    (hok : op k = .ok a)
    (h0 : 0 < cfg.initial_delay) (h1 : cfg.initial_delay ≤ cfg.max_delay)
    (h2 : 1 ≤ cfg.exponential_base)
    (hd : ∀ n, 0 ≤ draws n ∧ draws n < 1) :
    (retry_async op retriable cfg draws).outcome = .ok a
    ∧ (retry_async op retriable cfg draws).calls = k + 1
    ∧ (retry_async op retriable cfg draws).sleeps.length = k
    ∧ (∀ d ∈ (retry_async op retriable cfg draws).sleeps,
        cfg.initial_delay / 2 ≤ d ∧ d < 3/2 * cfg.max_delay)
    ∧ (cfg.jitter = false →
        ∀ d ∈ (retry_async op retriable cfg draws).sleeps,
          cfg.initial_delay ≤ d ∧ d ≤ cfg.max_delay) := by
  have hrun := retryGo_success op retriable cfg draws err a k 0
    cfg.max_attempts.toNat none hk (by simpa using hfail) (by simpa using hok)
  rw [retry_async, hrun]
  refine ⟨rfl, rfl, by simp, ?_, ?_⟩
  · intro d hdmem
    simp only [List.mem_map, List.mem_range] at hdmem
    obtain ⟨i, hi, rfl⟩ := hdmem
    exact (get_delay_bounds cfg (draws (0 + i)) (0 + i) h0 h1 h2
      (hd (0 + i)).1 (hd (0 + i)).2).1
  · intro hj d hdmem
    simp only [List.mem_map, List.mem_range] at hdmem
    obtain ⟨i, hi, rfl⟩ := hdmem
    exact (get_delay_bounds cfg (draws (0 + i)) (0 + i) h0 h1 h2
      (hd (0 + i)).1 (hd (0 + i)).2).2 hj

/-- C8 witness: default configuration (jitter on), one transient failure and
success with 42 on the second attempt, zero jitter draws. -/
theorem retry_transient_success_delay_bounds_witness :
    (retry_async onceOp alwaysRetriable defaultCfg zeroDraws).outcome = .ok 42
    ∧ (retry_async onceOp alwaysRetriable defaultCfg zeroDraws).calls = 1 + 1
    ∧ (retry_async onceOp alwaysRetriable defaultCfg zeroDraws).sleeps.length = 1
    ∧ (∀ d ∈ (retry_async onceOp alwaysRetriable defaultCfg zeroDraws).sleeps,
        defaultCfg.initial_delay / 2 ≤ d ∧ d < 3/2 * defaultCfg.max_delay)
    ∧ (defaultCfg.jitter = false →
        ∀ d ∈ (retry_async onceOp alwaysRetriable defaultCfg zeroDraws).sleeps,
          defaultCfg.initial_delay ≤ d ∧ d ≤ defaultCfg.max_delay) :=
  retry_transient_success_delay_bounds onceOp alwaysRetriable defaultCfg
    zeroDraws zeroErr 42 1 (by decide)
    (fun i hi => by
      have h : i = 0 := by omega
      subst h
      exact ⟨rfl, rfl⟩)
    rfl (by norm_num [defaultCfg]) (by norm_num [defaultCfg])
    (by norm_num [defaultCfg])
    (fun n => ⟨le_refl 0, by norm_num [zeroDraws]⟩)

/-- C8 counterexample: with the default configuration (jitter enabled) and
the legal draw 0, the single delay slept before the successful retry is
`1/2` — strictly below `initial_delay = 1`, so the delay does not lie in the
claimed interval `[initial_delay, max_delay]`. -/
theorem jitter_delay_below_initial :
    (retry_async onceOp alwaysRetriable defaultCfg zeroDraws).outcome = .ok 42
    ∧ (retry_async onceOp alwaysRetriable defaultCfg zeroDraws).sleeps = [1/2]
    ∧ ¬ defaultCfg.initial_delay ≤ 1/2 := by
  refine ⟨by decide, ?_, by norm_num [defaultCfg]⟩
  norm_num [retry_async, retryGo, RetryConfig.get_delay, defaultCfg, onceOp,
    alwaysRetriable, zeroDraws]

/-- C10: for every call with a non-positive `max_attempts`, the loop body
never runs: the wrapped operation is invoked zero times, nothing is slept,
and the function reaches `raise last_exception` with `last_exception` still
`None` — Python raises `TypeError` instead of any operation failure. -/
theorem retry_nonpositive_attempts_never_invokes {E A : Type}
    (op : Nat → Except E A) (retriable : E → Bool) (cfg : RetryConfig)
    (draws : Nat → ℚ) (h : cfg.max_attempts ≤ 0) :
    retry_async op retriable cfg draws
      = ⟨.typeErrorNone, 0, []⟩ := by
  have h0 : cfg.max_attempts.toNat = 0 := by omega
  rw [retry_async, h0]
  rfl

/-- C10 witness: `max_attempts = -2` with an always-failing operation — the
operation is never invoked and the sentinel `None` is re-raised. -/
theorem retry_nonpositive_attempts_never_invokes_witness :
    retry_async failOp alwaysRetriable negCfg zeroDraws
      = ⟨.typeErrorNone, 0, []⟩
    ∧ negCfg.max_attempts ≤ 0 :=
  ⟨retry_nonpositive_attempts_never_invokes failOp alwaysRetriable negCfg
    zeroDraws (by decide), by decide⟩
